import Mathlib

/-!
Shallow embedding of the receipt-management backend (receipts app):
the data model (`Receipt`, `ReceiptItem`, `Business`), the money/totals
calculator (`calculate_receipt_totals` in receipts/utils.py), the
`ReceiptDetailSerializer` validation and persistence logic
(receipts/serializers.py), and the view-layer sync operations
(`bulk_sync`, `get_changes`, `get_queryset`, `perform_create`,
`soft_delete` in receipts/views.py and receipts/models.py).

Python `Decimal` values are embedded as the type `Dec`: an integer
coefficient with a power-of-ten exponent, kept in canonical form (no
trailing fractional zeros), exactly mirroring decimal floating point -
all the operations the source performs on `Decimal` (sums, products,
differences, comparisons, `quantize`) are exact here, and `Dec.val`
interprets a `Dec` as the rational number it denotes.  Timestamps are
integers; uuids and foreign keys are naturals.  The database is an
explicit `DB` value threaded through the operations, and fallible code
returns `Except PyError`.
-/

/-- An exact decimal number: the value `m / 10 ^ e`.  Values constructed by
the operations below are canonical (`e = 0`, or `m` not divisible by 10),
so propositional equality of `Dec` coincides with equality of denoted
values. -/
structure Dec where
  m : ℤ
  e : ℕ
deriving DecidableEq, Repr

/-- Strip trailing fractional zeros: canonicalize the representation of
`m / 10 ^ e` without changing the denoted value. -/
def Dec.normAux : ℤ → ℕ → Dec
  | m, 0 => ⟨m, 0⟩
  | m, e + 1 => if m % 10 = 0 then Dec.normAux (m / 10) e else ⟨m, e + 1⟩

/-- Build the canonical decimal denoting `m / 10 ^ e`. -/
def dec (m : ℤ) (e : ℕ) : Dec := Dec.normAux m e

instance (n : ℕ) : OfNat Dec n := ⟨Dec.normAux (Int.ofNat n) 0⟩

/-- The rational number a decimal denotes. -/
def Dec.val (d : Dec) : ℚ := (d.m : ℚ) / (10 : ℚ) ^ d.e

/-- Exact decimal addition (align exponents, add coefficients). -/
def Dec.add (a b : Dec) : Dec :=
  Dec.normAux
    (a.m * (10 : ℤ) ^ (max a.e b.e - a.e) + b.m * (10 : ℤ) ^ (max a.e b.e - b.e))
    (max a.e b.e)

/-- Exact decimal multiplication. -/
def Dec.mul (a b : Dec) : Dec := Dec.normAux (a.m * b.m) (a.e + b.e)

/-- Decimal negation. -/
def Dec.neg (a : Dec) : Dec := ⟨-a.m, a.e⟩

/-- Exact decimal subtraction. -/
def Dec.sub (a b : Dec) : Dec := Dec.add a (Dec.neg b)

/-- Decimal absolute value. -/
def Dec.abs (a : Dec) : Dec := ⟨|a.m|, a.e⟩

instance : Add Dec := ⟨Dec.add⟩

instance : Mul Dec := ⟨Dec.mul⟩

instance : Neg Dec := ⟨Dec.neg⟩

instance : Sub Dec := ⟨Dec.sub⟩

instance : LE Dec :=
  ⟨fun a b =>
    a.m * (10 : ℤ) ^ (max a.e b.e - a.e) ≤ b.m * (10 : ℤ) ^ (max a.e b.e - b.e)⟩

instance : LT Dec :=
  ⟨fun a b =>
    a.m * (10 : ℤ) ^ (max a.e b.e - a.e) < b.m * (10 : ℤ) ^ (max a.e b.e - b.e)⟩

instance (a b : Dec) : Decidable (a ≤ b) :=
  inferInstanceAs
    (Decidable (a.m * (10 : ℤ) ^ (max a.e b.e - a.e) ≤ b.m * (10 : ℤ) ^ (max a.e b.e - b.e)))

instance (a b : Dec) : Decidable (a < b) :=
  inferInstanceAs
    (Decidable (a.m * (10 : ℤ) ^ (max a.e b.e - a.e) < b.m * (10 : ℤ) ^ (max a.e b.e - b.e)))

/-- Sync status choices of the `SyncStatus` TextChoices in receipts/models.py. -/
inductive SyncStatus where
  | pending
  | synced
  | error
  | deleted
deriving DecidableEq, Repr

/-- Errors surfaced by the embedded code paths: DRF field validation errors,
the two cross-field financial-integrity errors raised in
`ReceiptDetailSerializer.validate` (the subtotal message carries both the
expected and the received value, the grand-total message only the expected
one, mirroring the two f-strings in the source), the unique-together
validator, Python `TypeError` for an invalid model kwarg, Django
`FieldError` for an invalid queryset lookup, database integrity errors, and
a plain 400 response. -/
inductive PyError where
  | validation (field : String) (msg : String)
  | subtotalMismatch (expected got : Dec)
  | grandTotalMismatch (expected : Dec)
  | uniqueTogether
  | typeError (kwarg : String)
  | fieldError (lookup : String)
  | integrityError (msg : String)
  | badRequest (msg : String)
deriving DecidableEq, Repr

/-- A row of the `Business` model (business/models.py): only the fields the
receipts app consults (`pk` and `owner`). -/
structure Business where
  id : Nat
  owner : Nat
deriving DecidableEq, Repr

/-- A row of the `ReceiptItem` model (receipts/models.py). -/
structure ReceiptItem where
  id : Nat
  receipt : Nat
  description : String
  quantity : Dec
  unit_price : Dec
  total : Dec
  order : Nat
deriving DecidableEq, Repr

/-- A row of the `Receipt` model (receipts/models.py).  `business` is the FK
pk; `server_id` is nullable and never assigned by this backend; `deleted_at`
non-`none` means soft-deleted. -/
structure Receipt where
  id : Nat
  business : Nat
  receipt_number : String
  receipt_date : ℤ
  customer_name : String
  customer_phone : Option String := none
  customer_email : Option String := none
  subtotal : Dec
  tax_rate : Dec
  tax_amount : Dec := 0
  discount : Dec := 0
  grand_total : Dec
  notes : Option String := none
  is_paid : Bool := false
  paid_at : Option ℤ := none
  server_id : Option Int := none
  sync_status : SyncStatus := .pending
  created_at : ℤ
  updated_at : ℤ
  deleted_at : Option ℤ := none
deriving DecidableEq, Repr

/-- The persistent store: the three tables plus a counter supplying fresh
primary keys (standing in for `uuid.uuid4`). -/
structure DB where
  businesses : List Business
  receipts : List Receipt
  items : List ReceiptItem
  nextId : Nat
deriving DecidableEq, Repr

/-- An entry of the item list consumed by `calculate_receipt_totals`
(receipts/utils.py): the function reads the dict keys `quantity` and
`unitPrice`. -/
structure CalcItem where
  quantity : Dec
  unitPrice : Dec
deriving DecidableEq, Repr

/-- The dict returned by `calculate_receipt_totals`: keys `subtotal`,
`taxAmount`, `grandTotal`. -/
structure Totals where
  subtotal : Dec
  taxAmount : Dec
  grandTotal : Dec
deriving DecidableEq, Repr

/-- Embedding of `calculate_receipt_totals` (receipts/utils.py, lines 37-59):
`subtotal = sum(quantity * unitPrice)`, `tax_amount = subtotal * tax_rate`
when `tax_enabled` else `Decimal('0.00')`, `grand_total = subtotal +
tax_amount - discount`.  The source applies no rounding anywhere. -/
def calculate_receipt_totals (items : List CalcItem) (tax_enabled : Bool)
    (tax_rate : Dec) (discount : Dec := 0) : Totals :=
  let subtotal := items.foldl (fun acc it => acc + it.quantity * it.unitPrice) 0
  let tax_amount := if tax_enabled then subtotal * tax_rate else 0
  let grand_total := subtotal + tax_amount - discount
  { subtotal := subtotal, taxAmount := tax_amount, grandTotal := grand_total }

/-- Python `Decimal.quantize(Decimal('0.01'))` with the default
`ROUND_HALF_EVEN` mode, as used twice in `ReceiptDetailSerializer.validate`:
round the value to a whole number of cents, ties to the even integer. -/
def quantize2 (x : Dec) : Dec :=
  if x.e ≤ 2 then Dec.normAux (x.m * (10 : ℤ) ^ (2 - x.e)) 2
  else
    let d : ℤ := (10 : ℤ) ^ (x.e - 2)
    let q := x.m / d
    let r := x.m % d
    let q' :=
      if 2 * r < d then q
      else if d < 2 * r then q + 1
      else if q % 2 = 0 then q else q + 1
    Dec.normAux q' 2

/-- Modelled from the spec: standard half-up rounding to 2 decimal places,
as the spec's formula for the totals calculator demands (the source applies
no rounding, so this definition exists only to be compared against it). -/
def specRound2HalfUp (x : Dec) : Dec :=
  let y := x * dec 100 0 + dec 5 1
  Dec.normAux (y.m / (10 : ℤ) ^ y.e) 2

/-- Canonicalization preserves the denoted value. -/
theorem Dec.val_normAux (m : ℤ) (e : ℕ) :
    (Dec.normAux m e).val = (m : ℚ) / (10 : ℚ) ^ e := by
  induction e generalizing m with
  | zero => simp [Dec.normAux, Dec.val]
  | succ e ih =>
    rw [Dec.normAux]
    split
    · rename_i h
      rw [ih]
      have hm : (10 : ℤ) * (m / 10) = m := by omega
      have hq : ((m / 10 : ℤ) : ℚ) = (m : ℚ) / 10 := by
        have hcast : ((10 : ℤ) : ℚ) * ((m / 10 : ℤ) : ℚ) = ((m : ℤ) : ℚ) := by
          exact_mod_cast congrArg (fun z : ℤ => (z : ℚ)) hm
        push_cast at hcast
        linarith
      rw [hq, div_div, pow_succ]
      ring_nf
    · simp [Dec.val]

/-- Decimal addition is exact. -/
theorem Dec.val_add (a b : Dec) : (a + b).val = a.val + b.val := by
  have key : ∀ (mm : ℤ) (ee : ℕ), ee ≤ max a.e b.e →
      (mm : ℚ) * (10 : ℚ) ^ (max a.e b.e - ee) / (10 : ℚ) ^ (max a.e b.e) =
        (mm : ℚ) / (10 : ℚ) ^ ee := by
    intro mm ee he
    have hpow : (10 : ℚ) ^ (max a.e b.e) =
        (10 : ℚ) ^ ee * (10 : ℚ) ^ (max a.e b.e - ee) := by
      rw [← pow_add]
      congr 1
      omega
    have h1 : (10 : ℚ) ^ ee ≠ 0 := pow_ne_zero _ (by norm_num)
    have h2 : (10 : ℚ) ^ (max a.e b.e - ee) ≠ 0 := pow_ne_zero _ (by norm_num)
    rw [hpow]
    field_simp
    ring
  show (Dec.add a b).val = _
  unfold Dec.add
  rw [Dec.val_normAux]
  push_cast
  rw [add_div, key a.m a.e (le_max_left _ _), key b.m b.e (le_max_right _ _)]
  simp [Dec.val]

/-- Decimal multiplication is exact. -/
theorem Dec.val_mul (a b : Dec) : (a * b).val = a.val * b.val := by
  show (Dec.mul a b).val = _
  unfold Dec.mul
  rw [Dec.val_normAux]
  push_cast
  rw [pow_add]
  simp only [Dec.val]
  rw [div_mul_div_comm]

/-- Decimal negation is exact. -/
theorem Dec.val_neg (a : Dec) : (Dec.neg a).val = -a.val := by
  simp [Dec.neg, Dec.val, neg_div]

/-- Decimal subtraction is exact. -/
theorem Dec.val_sub (a b : Dec) : (a - b).val = a.val - b.val := by
  have h1 : (a - b).val = (a + Dec.neg b).val := rfl
  rw [h1, Dec.val_add, Dec.val_neg]
  ring

/-- The decimal zero denotes zero. -/
theorem Dec.val_zero : (0 : Dec).val = 0 := by
  simp [Dec.val]
  rfl

/-- A nested item payload as validated by `ReceiptItemSerializer`
(receipts/serializers.py): writable fields `id`, `description`, `quantity`,
`unit_price`, `order` (`total` is read-only).  `none` means the key was not
submitted. -/
structure SItem where
  id : Option Nat := none
  description : Option String := none
  quantity : Option Dec := none
  unit_price : Option Dec := none
  order : Option Nat := none
deriving DecidableEq, Repr

/-- A raw item dict as read by the `bulk_sync` view (receipts/views.py):
the view accesses the keys `description`, `quantity`, `unitPrice`, `total`
with `.get`. -/
structure BItem where
  description : Option String := none
  quantity : Option Dec := none
  unitPrice : Option Dec := none
  total : Option Dec := none
deriving DecidableEq, Repr

/-- The scalar (non-item) part of a receipt payload, keyed by the writable
fields of `ReceiptDetailSerializer` (`fields = '__all__'` minus the
read-only `id`, `created_at`, `updated_at`, `server_id`).  `none` means the
key was not submitted.  The nullable `template` FK is not consulted by any
property under study and is omitted. -/
structure FieldsPayload where
  business : Option Nat := none
  receipt_number : Option String := none
  receipt_date : Option ℤ := none
  customer_name : Option String := none
  customer_phone : Option String := none
  customer_email : Option String := none
  subtotal : Option Dec := none
  tax_rate : Option Dec := none
  tax_amount : Option Dec := none
  discount : Option Dec := none
  grand_total : Option Dec := none
  notes : Option String := none
  is_paid : Option Bool := none
  paid_at : Option ℤ := none
  sync_status : Option SyncStatus := none
  deleted_at : Option ℤ := none
deriving DecidableEq, Repr

/-- A record of a bulk-sync batch: the raw dict carries the client-assigned
`id` (read by the view with `data.get('id')`), the scalar fields, and the
raw nested `items` list (popped by the view with `data.pop('items', [])`). -/
structure BulkPayload extends FieldsPayload where
  id : Option Nat := none
  items : Option (List BItem) := none
deriving DecidableEq, Repr

/-- DRF `DecimalField` input validation: at most `places` decimal places
(the canonical exponent is at most `places`) and fewer than
`maxDigits - places` integral digits. -/
def decimalOk (maxDigits places : Nat) (q : Dec) : Bool :=
  decide (q.e ≤ places) && decide (Dec.abs q < dec ((10 : ℤ) ^ (maxDigits - places)) 0)

/-- Check an optional decimal payload field against a predicate (absent
fields pass). -/
def checkField (name : String) (v : Option Dec) (ok : Dec → Bool) :
    Except PyError Unit :=
  match v with
  | none => .ok ()
  | some q => if ok q then .ok () else .error (.validation name "invalid")

/-- Field-level validation of the scalar receipt fields, as DRF performs it
for `ReceiptDetailSerializer`: on create (no instance, i.e. a non-partial
serializer) the model fields without defaults are required; the `business`
PrimaryKeyRelatedField must reference an existing row; the model's
`MinValueValidator`/`MaxValueValidator` bounds and decimal precision apply
to every submitted value. -/
def validateFields (db : DB) (isCreate : Bool) (p : FieldsPayload) :
    Except PyError Unit := do
  if isCreate then do
    if p.business.isNone then throw (.validation "business" "This field is required.")
    if p.receipt_number.isNone then throw (.validation "receipt_number" "This field is required.")
    if p.receipt_date.isNone then throw (.validation "receipt_date" "This field is required.")
    if p.customer_name.isNone then throw (.validation "customer_name" "This field is required.")
    if p.subtotal.isNone then throw (.validation "subtotal" "This field is required.")
    if p.tax_rate.isNone then throw (.validation "tax_rate" "This field is required.")
    if p.grand_total.isNone then throw (.validation "grand_total" "This field is required.")
  match p.business with
  | some b =>
      if db.businesses.any (fun x => x.id == b) then pure ()
      else throw (.validation "business" "object does not exist")
  | none => pure ()
  checkField "subtotal" p.subtotal (fun q => decimalOk 12 2 q && decide (0 ≤ q))
  checkField "tax_rate" p.tax_rate
    (fun q => decimalOk 5 4 q && decide (0 ≤ q) && decide (q ≤ dec 1 0))
  checkField "tax_amount" p.tax_amount (fun q => decimalOk 12 2 q && decide (0 ≤ q))
  checkField "discount" p.discount (fun q => decimalOk 12 2 q && decide (0 ≤ q))
  checkField "grand_total" p.grand_total (fun q => decimalOk 12 2 q && decide (0 ≤ q))

/-- Field-level validation of one nested item, per `ReceiptItemSerializer`:
`description`, `quantity`, `unit_price` required; quantity a positive
decimal (min 0.001, 3 places), unit price a non-negative decimal
(2 places). -/
def validateSItem (it : SItem) : Except PyError Unit :=
  if it.description.isNone then .error (.validation "items" "description required")
  else match it.quantity with
  | none => .error (.validation "items" "quantity required")
  | some q =>
    if !(decimalOk 10 3 q && decide (dec 1 3 ≤ q)) then
      .error (.validation "items" "quantity invalid")
    else match it.unit_price with
    | none => .error (.validation "items" "unit_price required")
    | some up =>
      if !(decimalOk 12 2 up && decide (0 ≤ up)) then
        .error (.validation "items" "unit_price invalid")
      else .ok ()

/-- The `UniqueTogetherValidator` on `(business, receipt_number)` declared in
`ReceiptDetailSerializer.Meta`: on a partial update, values missing from the
payload are read from the instance; the instance itself is excluded from the
collision query. -/
def uniqueTogetherCheck (db : DB) (inst : Option Receipt) (p : FieldsPayload) :
    Except PyError Unit :=
  let biz := match p.business with
    | some b => some b
    | none => inst.map (·.business)
  let num := match p.receipt_number with
    | some n => some n
    | none => inst.map (·.receipt_number)
  match biz, num with
  | some b, some n =>
      let clash := db.receipts.any (fun r =>
        r.business == b && r.receipt_number == n
          && (match inst with
              | some i => r.id != i.id
              | none => true))
      if clash then .error .uniqueTogether else .ok ()
  | _, _ => .ok ()

/-- Embedding of `ReceiptDetailSerializer.validate` (receipts/serializers.py,
lines 31-61), run on the validated data dict: missing keys fall back to the
literal defaults in the source (`[]` for items, `Decimal('0.00')` for the
money fields); the recomputed subtotal is compared to the submitted one with
the strict test `abs(diff) > 0.01`, then the expected grand total is
recomputed from the submitted subtotal, quantized tax and discount and
compared the same way. -/
def crossFieldValidate (itemsOpt : Option (List SItem)) (p : FieldsPayload) :
    Except PyError Unit :=
  let items := itemsOpt.getD []
  let subtotal := p.subtotal.getD 0
  let tax_rate := p.tax_rate.getD 0
  let discount := p.discount.getD 0
  let grand_total := p.grand_total.getD 0
  let calculated_subtotal :=
    items.foldl (fun acc it => acc + it.quantity.getD 0 * it.unit_price.getD 0) 0
  if decide (dec 1 2 < Dec.abs (calculated_subtotal - subtotal)) then
    .error (.subtotalMismatch calculated_subtotal subtotal)
  else
    let tax_amount := quantize2 (subtotal * tax_rate)
    let expected_grand_total := quantize2 (subtotal + tax_amount - discount)
    if decide (dec 1 2 < Dec.abs (expected_grand_total - grand_total)) then
      .error (.grandTotalMismatch expected_grand_total)
    else .ok ()

/-- Embedding of `ReceiptDetailSerializer.is_valid`: field validation, the
declared nested `items` field (required when creating, i.e. when there is no
instance), the unique-together validator, then the cross-field `validate`.
`itemsOpt = none` means the payload carried no `items` key - in particular
the `bulk_sync` view always pops `items` out of the data before handing it
to the serializer. -/
def validateDetail (db : DB) (inst : Option Receipt)
    (itemsOpt : Option (List SItem)) (p : FieldsPayload) :
    Except PyError Unit := do
  validateFields db inst.isNone p
  match itemsOpt with
  | none =>
      if inst.isNone then throw (.validation "items" "This field is required.")
      else pure ()
  | some l => l.foldlM (fun _ it => validateSItem it) ()
  uniqueTogetherCheck db inst p
  crossFieldValidate itemsOpt p

/-- Django model field names of `ReceiptItem` (receipts/models.py). -/
def receiptItemFieldNames : List String :=
  ["id", "receipt", "description", "quantity", "unit_price", "total", "order",
   "created_at", "updated_at"]

/-- Keyword-argument names the `bulk_sync` view passes to
`receipt.items.create(...)` (receipts/views.py, lines 97-101).  Note the
camelCase `unitPrice`, which is not a `ReceiptItem` model field. -/
def bulkSyncItemKwargNames : List String :=
  ["description", "quantity", "unitPrice", "total"]

/-- The item-creation call in the `bulk_sync` loop: Django's `Model(**kwargs)`
raises `TypeError` on any keyword that is not a model field, so the call
fails whenever one of the kwarg names is unknown; were all names valid the
row would be inserted with the given values (`total` computed by the model's
`save` when absent). -/
def bulkCreateItem (db : DB) (rid : Nat) (it : BItem) : Except PyError DB :=
  match bulkSyncItemKwargNames.find? (fun k => !(receiptItemFieldNames.contains k)) with
  | some k => .error (.typeError k)
  | none =>
      let q := it.quantity.getD 0
      let up := it.unitPrice.getD 0
      .ok { db with
              nextId := db.nextId + 1,
              items := db.items ++
                [{ id := db.nextId, receipt := rid,
                   description := it.description.getD "",
                   quantity := q, unit_price := up,
                   total := it.total.getD (q * up), order := 0 }] }

/-- Write a receipt row, enforcing the `unique_together (business,
receipt_number)` constraint of the `receipts` table at the storage layer. -/
def dbSaveReceipt (db : DB) (r : Receipt) (isNew : Bool) : Except PyError DB :=
  if db.receipts.any (fun x =>
      x.id != r.id && x.business == r.business
        && x.receipt_number == r.receipt_number) then
    .error (.integrityError "unique business receipt_number")
  else if isNew then .ok { db with receipts := db.receipts ++ [r] }
  else .ok { db with receipts := db.receipts.map (fun x => if x.id == r.id then r else x) }

/-- The `setattr` loop of `ReceiptDetailSerializer.update`: overwrite exactly
the fields present in the validated data, leave every other field of the
instance untouched. -/
def applyFieldsTo (inst : Receipt) (p : FieldsPayload) : Receipt :=
  { inst with
      business := p.business.getD inst.business,
      receipt_number := p.receipt_number.getD inst.receipt_number,
      receipt_date := p.receipt_date.getD inst.receipt_date,
      customer_name := p.customer_name.getD inst.customer_name,
      customer_phone := (p.customer_phone.map some).getD inst.customer_phone,
      customer_email := (p.customer_email.map some).getD inst.customer_email,
      subtotal := p.subtotal.getD inst.subtotal,
      tax_rate := p.tax_rate.getD inst.tax_rate,
      tax_amount := p.tax_amount.getD inst.tax_amount,
      discount := p.discount.getD inst.discount,
      grand_total := p.grand_total.getD inst.grand_total,
      notes := (p.notes.map some).getD inst.notes,
      is_paid := p.is_paid.getD inst.is_paid,
      paid_at := (p.paid_at.map some).getD inst.paid_at,
      sync_status := p.sync_status.getD inst.sync_status,
      deleted_at := (p.deleted_at.map some).getD inst.deleted_at }

/-- Build the fresh row for `Receipt.objects.create(**validated_data)`:
the primary key is a fresh uuid - the model declares
`id = models.UUIDField(primary_key=True, default=uuid.uuid4, editable=False)`
and the serializer lists `id` as read-only, so a client-submitted id is
never used; absent fields take the model defaults; `server_id` is never
assigned; `created_at`/`updated_at` are set to the current time. -/
def mkNewReceipt (freshId : Nat) (now : ℤ) (biz : Nat) (p : FieldsPayload) : Receipt :=
  { id := freshId, business := biz,
    receipt_number := p.receipt_number.getD "",
    receipt_date := p.receipt_date.getD 0,
    customer_name := p.customer_name.getD "",
    customer_phone := p.customer_phone,
    customer_email := p.customer_email,
    subtotal := p.subtotal.getD 0,
    tax_rate := p.tax_rate.getD 0,
    tax_amount := p.tax_amount.getD 0,
    discount := p.discount.getD 0,
    grand_total := p.grand_total.getD 0,
    notes := p.notes,
    is_paid := p.is_paid.getD false,
    paid_at := p.paid_at,
    server_id := none,
    sync_status := p.sync_status.getD .pending,
    created_at := now, updated_at := now,
    deleted_at := p.deleted_at }

/-- `ReceiptItem.objects.create(receipt=..., **item_data)` as called from
`ReceiptDetailSerializer.create`/`update`: the serializer never passes
`total`, so the model's `save` computes `total = quantity * unit_price`;
a client-supplied item `id` (writable on the item serializer) is used as the
primary key when present, otherwise a fresh uuid is drawn. -/
def createSItemRow (db : DB) (rid : Nat) (it : SItem) : Except PyError DB :=
  let iid := it.id.getD db.nextId
  if db.items.any (fun x => x.id == iid) then .error (.integrityError "item pk")
  else
    let q := it.quantity.getD 0
    let up := it.unit_price.getD 0
    .ok { db with
            nextId := db.nextId + 1,
            items := db.items ++
              [{ id := iid, receipt := rid, description := it.description.getD "",
                 quantity := q, unit_price := up, total := q * up,
                 order := it.order.getD 0 }] }

/-- Embedding of `ReceiptDetailSerializer.update` (receipts/serializers.py,
lines 73-87): pop `items`, `setattr` every submitted field, save the
instance (touching `updated_at`); when an `items` list was submitted, delete
all existing rows of the receipt and recreate the submitted ones (their
payload `id` popped, so each gets a fresh primary key). -/
def detailUpdate (db : DB) (now : ℤ) (inst : Receipt) (p : FieldsPayload)
    (itemsOpt : Option (List SItem)) : Except PyError (DB × Receipt) := do
  let r := { applyFieldsTo inst p with updated_at := now }
  let db1 ← dbSaveReceipt db r false
  match itemsOpt with
  | none => pure (db1, r)
  | some l => do
      let db2 := { db1 with items := db1.items.filter (fun x => x.receipt != r.id) }
      let db3 ← l.foldlM (fun d it => createSItemRow d r.id { it with id := none }) db2
      pure (db3, r)

/-- Embedding of `ReceiptDetailSerializer.create`: insert the receipt row,
then create each submitted item. -/
def detailCreate (db : DB) (now : ℤ) (p : FieldsPayload) (items : List SItem) :
    Except PyError (DB × Receipt) := do
  let r := mkNewReceipt db.nextId now (p.business.getD 0) p
  let db1 ← dbSaveReceipt { db with nextId := db.nextId + 1 } r true
  let db2 ← items.foldlM (fun d it => createSItemRow d r.id it) db1
  pure (db2, r)

/-- Embedding of `ReceiptViewSet.perform_create` (receipts/views.py, lines
53-58): run full serializer validation on the payload, then
`serializer.save(sync_status=SyncStatus.SYNCED)` - the kwarg overrides the
payload's `sync_status`, and nothing consults `server_id`. -/
def perform_create (db : DB) (now : ℤ) (p : FieldsPayload)
    (items : Option (List SItem)) : Except PyError (DB × Receipt) := do
  validateDetail db none items p
  detailCreate db now { p with sync_status := some .synced } (items.getD [])

/-- The existence lookup of the `bulk_sync` loop (receipts/views.py, line 80):
`Receipt.objects.filter(id=receipt_id).first()` - filtered by the submitted
id alone, with no business or owner condition. -/
def lookupInstance (db : DB) (rid : Option Nat) : Option Receipt :=
  (db.receipts.filter (fun r => rid == some r.id)).head?

/-- Body of the per-record `with transaction.atomic()` block in `bulk_sync`:
`serializer.save(sync_status=SyncStatus.SYNCED, business=user_business)`
(update or create branch), then `receipt.items.all().delete()`, then one
`receipt.items.create(...)` per raw item.  Any failure aborts the whole
block. -/
def bulkSyncAtomic (db : DB) (now : ℤ) (inst : Option Receipt)
    (p : FieldsPayload) (user_business : Option Nat)
    (items_data : List BItem) : Except PyError DB := do
  let saved ←
    match user_business with
    | none => Except.error (.integrityError "business null")
    | some ub =>
        match inst with
        | some r0 =>
            let r := { applyFieldsTo r0 p with
                         business := ub, sync_status := .synced, updated_at := now }
            (dbSaveReceipt db r false).map (fun d => (d, r.id))
        | none =>
            let r := mkNewReceipt db.nextId now ub { p with sync_status := some .synced }
            (dbSaveReceipt { db with nextId := db.nextId + 1 } r true).map
              (fun d => (d, r.id))
  let db2 := { saved.1 with items := saved.1.items.filter (fun x => x.receipt != saved.2) }
  items_data.foldlM (fun d it => bulkCreateItem d saved.2 it) db2

/-- Outcome of one iteration of the `bulk_sync` loop: which of the three
counters/lists of the result dict it feeds. -/
inductive StepOutcome where
  | created
  | updated
  | errored (id : Option Nat) (e : PyError)
deriving DecidableEq, Repr

/-- One iteration of the `bulk_sync` loop (receipts/views.py, lines 76-107):
pop `items`, read `id`, look the instance up by id alone, validate
(partial iff an instance was found, and with no `items` key since it was
popped), then run the atomic block; a validation failure or an exception
inside the block leaves the database untouched and yields an error entry. -/
def bulkSyncStep (user : Nat) (now : ℤ) (db : DB) (data : BulkPayload) :
    DB × StepOutcome :=
  let items_data := (data.items).getD []
  let receipt_id := data.id
  let inst := lookupInstance db receipt_id
  match validateDetail db inst none data.toFieldsPayload with
  | .error e => (db, .errored receipt_id e)
  | .ok _ =>
      let user_business :=
        ((db.businesses.filter (fun b => b.owner == user)).head?).map (·.id)
      match bulkSyncAtomic db now inst data.toFieldsPayload user_business items_data with
      | .ok db' => (db', if inst.isSome then .updated else .created)
      | .error e => (db, .errored receipt_id e)

/-- The result dict of `bulk_sync`:
`("created": 0, "updated": 0, "errors": [])` accumulated over the batch. -/
structure SyncResults where
  created : Nat
  updated : Nat
  errors : List (Option Nat × PyError)
deriving DecidableEq, Repr

/-- Feed one loop outcome into the result accumulators. -/
def pushOutcome (res : SyncResults) (o : StepOutcome) : SyncResults :=
  match o with
  | .created => { res with created := res.created + 1 }
  | .updated => { res with updated := res.updated + 1 }
  | .errored i e => { res with errors := res.errors ++ [(i, e)] }

/-- The `bulk_sync` loop over the remaining records, carrying the database
and the accumulated result dict. -/
def bulkSyncAux (user : Nat) (now : ℤ) :
    DB → SyncResults → List BulkPayload → DB × SyncResults
  | db, res, [] => (db, res)
  | db, res, d :: rest =>
      let s := bulkSyncStep user now db d
      bulkSyncAux user now s.1 (pushOutcome res s.2) rest

/-- Embedding of the `bulk_sync` action (receipts/views.py, lines 60-109). -/
def bulk_sync (user : Nat) (now : ℤ) (db : DB) (batch : List BulkPayload) :
    DB × SyncResults :=
  bulkSyncAux user now db { created := 0, updated := 0, errors := [] } batch

/-- Django join semantics of `business__owner=user`: the receipt's business
row exists and is owned by the user. -/
def ownedBy (db : DB) (user : Nat) (r : Receipt) : Bool :=
  db.businesses.any (fun b => b.id == r.business && b.owner == user)

/-- The queryset built by `get_changes`:
`Receipt.objects.filter(business__owner=request.user, updated_at__gt=last_sync)`
- strictly-greater watermark, no soft-delete filter. -/
def changesSince (db : DB) (user : Nat) (t : ℤ) : List Receipt :=
  db.receipts.filter (fun r => ownedBy db user r && decide (t < r.updated_at))

/-- Embedding of the `get_changes` action (receipts/views.py, lines 123-138):
a missing `last_sync` parameter yields an immediate 400 response; otherwise
the owner-scoped strictly-after-watermark queryset is returned. -/
def get_changes (db : DB) (user : Nat) (last_sync : Option ℤ) :
    Except PyError (List Receipt) :=
  match last_sync with
  | none => .error (.badRequest "last_sync timestamp is required")
  | some t => .ok (changesSince db user t)

/-- Lookup names Django accepts on a `DateTimeField` (exact/isnull and the
comparison, range and date-part transforms). -/
def datetimeFieldLookups : List String :=
  ["exact", "iexact", "isnull", "gt", "gte", "lt", "lte", "in", "range",
   "date", "year", "month", "day", "week", "week_day", "quarter", "time",
   "hour", "minute", "second", "contains", "startswith", "endswith"]

/-- The lookup name `get_queryset` uses on `deleted_at`
(receipts/views.py, line 46): `deleted_at__is_null=True`. -/
def getQuerysetDeletedLookup : String := "is_null"

/-- Embedding of `ReceiptViewSet.get_queryset` (receipts/views.py, lines
38-49): filter by `business__owner=user` and `deleted_at__is_null=True`.
Django resolves the double-underscore suffix against the field's registered
lookups and raises `FieldError` when the name is unknown; only if the name
were valid would the owner-scoped, non-deleted rows be returned. -/
def get_queryset (db : DB) (user : Nat) : Except PyError (List Receipt) :=
  if datetimeFieldLookups.contains getQuerysetDeletedLookup then
    .ok (db.receipts.filter (fun r => ownedBy db user r && r.deleted_at == none))
  else .error (.fieldError getQuerysetDeletedLookup)

/-- Embedding of `Receipt.soft_delete` (receipts/models.py, lines 135-138):
set `deleted_at` to the current time, `sync_status` to `deleted`, and save
(which touches the `auto_now` field `updated_at`). -/
def Receipt.soft_delete (r : Receipt) (now : ℤ) : Receipt :=
  { r with deleted_at := some now, sync_status := .deleted, updated_at := now }

/-- Apply `Receipt.soft_delete` to the stored row with the given pk. -/
def dbSoftDelete (db : DB) (rid : Nat) (now : ℤ) : DB :=
  { db with receipts := db.receipts.map (fun r => if r.id == rid then r.soft_delete now else r) }

/-! ### Concrete fixtures used by the claim theorems -/

/-- A store with one business (pk 1) owned by user 10 and no receipts. -/
def db0 : DB :=
  { businesses := [{ id := 1, owner := 10 }], receipts := [], items := [], nextId := 1000 }

/-- A fully populated, financially consistent bulk-sync record carrying the
client-assigned id 7 and two nested items (2 x 10.00 and 1 x 5.00). -/
def p1 : BulkPayload :=
  { id := some 7, business := some 1, receipt_number := some "#001",
    receipt_date := some 0, customer_name := some "Ada",
    subtotal := some 25, tax_rate := some (dec 1 1), tax_amount := some (dec 25 1),
    discount := some 0, grand_total := some (dec 275 1),
    items := some
      [{ description := some "Cake", quantity := some 2, unitPrice := some 10, total := some 20 },
       { description := some "Tea", quantity := some 1, unitPrice := some 5, total := some 5 }] }

/-- A synced receipt (pk 7) of business 1, last updated at time 50. -/
def r7 : Receipt :=
  { id := 7, business := 1, receipt_number := "#001", receipt_date := 0,
    customer_name := "Bob", subtotal := 25, tax_rate := dec 1 1,
    tax_amount := dec 25 1, discount := 0, grand_total := dec 275 1,
    sync_status := .synced, created_at := 0, updated_at := 50 }

/-- A stored line item of receipt 7. -/
def iA : ReceiptItem :=
  { id := 100, receipt := 7, description := "Cake", quantity := 2,
    unit_price := 10, total := 20, order := 0 }

/-- A second stored line item of receipt 7. -/
def iB : ReceiptItem :=
  { id := 101, receipt := 7, description := "Tea", quantity := 1,
    unit_price := 5, total := 5, order := 1 }

/-- A store holding receipt 7 with its two items, owned by user 10. -/
def db3 : DB :=
  { businesses := [{ id := 1, owner := 10 }], receipts := [r7],
    items := [iA, iB], nextId := 1000 }

/-- A bulk-sync record updating existing receipt 7 with one replacement
item. -/
def p3 : BulkPayload :=
  { id := some 7,
    items := some
      [{ description := some "X", quantity := some 1, unitPrice := some 5, total := some 5 }] }

/-- A receipt with pk 7 belonging to business 2, which is owned by user 20 -
not by user 10, the later caller. -/
def r7other : Receipt :=
  { id := 7, business := 2, receipt_number := "#001", receipt_date := 0,
    customer_name := "Eve", subtotal := 25, tax_rate := dec 1 1,
    tax_amount := dec 25 1, discount := 0, grand_total := dec 275 1,
    sync_status := .synced, created_at := 0, updated_at := 50 }

/-- Two users, two businesses; the only receipt belongs to user 20's
business. -/
def db4 : DB :=
  { businesses := [{ id := 1, owner := 10 }, { id := 2, owner := 20 }],
    receipts := [r7other], items := [], nextId := 1000 }

/-- A minimal valid bulk-sync record submitted by user 10 naming user 20's
receipt id. -/
def p4 : BulkPayload :=
  { id := some 7, customer_name := some "hijack", items := some [] }

/-- A bulk-sync record whose submitted subtotal cannot match the recomputed
one (the view pops `items`, so the serializer recomputes a subtotal of 0):
a record that fails validation. -/
def pW : BulkPayload := { id := some 7, subtotal := some 25 }

/-- The round-trip payload of the spec: items 2 x 10.00 and 1 x 5.00, tax
rate 0.10, discount 0.00, subtotal 25.00, tax_amount 2.50, grand_total
27.50. -/
def p5 : FieldsPayload :=
  { business := some 1, receipt_number := some "#001", receipt_date := some 0,
    customer_name := some "Ada", subtotal := some 25, tax_rate := some (dec 1 1),
    tax_amount := some (dec 25 1), discount := some 0, grand_total := some (dec 275 1) }

/-- The round-trip items as the detail serializer validates them. -/
def items5 : List SItem :=
  [{ description := some "Cake", quantity := some 2, unit_price := some 10 },
   { description := some "Tea", quantity := some 1, unit_price := some 5 }]

/-- A store holding only the synced receipt 7 (no items), owned by user 10. -/
def db9 : DB :=
  { businesses := [{ id := 1, owner := 10 }], receipts := [r7], items := [],
    nextId := 1000 }

deriving instance DecidableEq for Except

/-! ### Helper lemmas -/

/-- Folding exact decimal addition of item products over a list denotes the
accumulator's value plus the sum of the denoted products. -/
theorem val_foldl_items (l : List CalcItem) (z : Dec) :
    (l.foldl (fun acc it => acc + it.quantity * it.unitPrice) z).val =
      z.val + (l.map (fun it => it.quantity.val * it.unitPrice.val)).sum := by
  induction l generalizing z with
  | nil => simp
  | cons x t ih =>
    simp only [List.foldl_cons, List.map_cons, List.sum_cons]
    rw [ih, Dec.val_add, Dec.val_mul]
    ring

/-- The first-match lookup by primary key returns the unique row with that
id, whatever its other fields are. -/
theorem filter_head_of_mem (l : List Receipt) (r : Receipt) (hmem : r ∈ l)
    (huniq : ∀ r' ∈ l, r'.id = r.id → r' = r) :
    (l.filter (fun x => some r.id == some x.id)).head? = some r := by
  induction l with
  | nil => cases hmem
  | cons a t ih =>
    by_cases hid : a.id = r.id
    · have ha : a = r := huniq a (List.mem_cons_self a t) hid
      subst ha
      simp [List.filter_cons]
    · have hmem' : r ∈ t := by
        rcases List.mem_cons.mp hmem with h | h
        · exact absurd (h ▸ rfl) hid
        · exact h
      have hfalse : (some r.id == some a.id) = false := by
        refine beq_eq_false_iff_ne.mpr (fun hcontra => ?_)
        exact hid (Option.some.inj hcontra).symm
      rw [List.filter_cons, hfalse]
      exact ih hmem' (fun r' hr' h' => huniq r' (List.mem_cons_of_mem a hr') h')

/-! ### Claim theorems -/

/-- C1: the bulk-sync create path is unreachable.  The view pops `items`
out of each record before validating, yet `ReceiptDetailSerializer`
declares `items` as a required field, so a record for which no receipt
exists is always rejected with an "items: This field is required." error:
submitting the spec's own round-trip batch to an empty store reports
created = 0 with one error and writes nothing, and replaying it behaves
identically - the premise of the idempotence claim (a first call that
creates N > 0 receipts) is unsatisfiable on this code. -/
theorem C1_bulk_sync_cannot_create :
    bulk_sync 10 100 db0 [p1] =
      (db0, { created := 0, updated := 0,
              errors := [(some 7, PyError.validation "items" "This field is required.")] }) ∧
    (bulk_sync 10 100 db0 [p1]).1.receipts = [] ∧
    bulk_sync 10 100 (bulk_sync 10 100 db0 [p1]).1 [p1] = bulk_sync 10 100 db0 [p1] := by
  decide

/-- C3: full item replacement never happens for a non-empty items payload.
The bulk-sync loop calls `receipt.items.create(unitPrice=...)`, but the
model field is `unit_price` (the model source itself notes the rename), so
Django raises `TypeError` on the unknown keyword; the per-record
transaction rolls back and the record lands in the errors list with the
receipt's old item collection fully retained. -/
theorem C3_bulk_item_replace_raises :
    bulk_sync 10 100 db3 [p3] =
      (db3, { created := 0, updated := 0,
              errors := [(some 7, PyError.typeError "unitPrice")] }) ∧
    (bulk_sync 10 100 db3 [p3]).1.items = [iA, iB] := by
  decide

/-- C4 counterexample: user 10 submits a bulk-sync record whose id equals
receipt 7, which belongs to business 2 owned by user 20.  The lookup
selects that foreign receipt as the update target, the record is counted as
updated, and the receipt ends up modified - renamed and even reassigned to
the caller's business - contradicting the claim that it is never selected
nor modified. -/
theorem C4_counterexample :
    lookupInstance db4 (some 7) = some r7other ∧
    (bulk_sync 10 100 db4 [p4]).2 =
      { created := 0, updated := 1, errors := [] } ∧
    ((bulk_sync 10 100 db4 [p4]).1.receipts.filter (fun r => r.id == 7)).map
        (fun r => (r.business, r.customer_name)) = [(1, "hijack")] := by
  decide

/-- C4 amended: the bulk-sync existence lookup is by the submitted id
alone - no business or owner condition at all.  Whatever receipt holds that
primary key (of any business, owned by any user) is selected as the update
target. -/
theorem C4_amended_lookup_unscoped (db : DB) (r : Receipt)
    (hmem : r ∈ db.receipts)
    (huniq : ∀ r' ∈ db.receipts, r'.id = r.id → r' = r) :
    lookupInstance db (some r.id) = some r := by
  unfold lookupInstance
  exact filter_head_of_mem db.receipts r hmem huniq

/-- Witness for C4: the amended lookup theorem applied to user 20's receipt
in the two-business store queried by user 10. -/
theorem C4_witness :
    (r7other ∈ db4.receipts ∧
      ∀ r' ∈ db4.receipts, r'.id = r7other.id → r' = r7other) ∧
    lookupInstance db4 (some r7other.id) = some r7other :=
  ⟨by decide, C4_amended_lookup_unscoped db4 r7other (by decide) (by decide)⟩

/-- C5 counterexample: the round-trip payload with submitted grand_total
27.49 passes validation - the integrity check rejects only discrepancies
strictly greater than 0.01, and |27.50 - 27.49| = 0.01 is not - so the
claimed rejection does not happen. -/
theorem C5_counterexample :
    validateDetail db0 none (some items5)
      { p5 with grand_total := some (dec 2749 2) } = .ok () := by
  decide

/-- C5 amended: the round-trip payload with grand_total 27.50 validates;
27.49 is also accepted (discrepancy exactly at the 0.01 tolerance); 27.48
is rejected, and the grand-total error carries the expected value 27.50
but not the received one (the received value is echoed only for subtotal
mismatches). -/
theorem C5_amended_round_trip :
    validateDetail db0 none (some items5) p5 = .ok () ∧
    validateDetail db0 none (some items5)
      { p5 with grand_total := some (dec 2749 2) } = .ok () ∧
    validateDetail db0 none (some items5)
      { p5 with grand_total := some (dec 2748 2) } =
        .error (.grandTotalMismatch (dec 275 1)) := by
  refine ⟨by decide, by decide, by decide⟩

/-- C6 counterexample: on one item of quantity 1 and unit price 0.15 with
tax enabled at rate 0.10, the calculator returns tax_amount 0.015 - the
exact product, not the claimed half-up rounding 0.02 of it. -/
theorem C6_counterexample :
    (calculate_receipt_totals [{ quantity := 1, unitPrice := dec 15 2 }] true (dec 1 1) 0).taxAmount
        = dec 15 3 ∧
    specRound2HalfUp (dec 15 3) = dec 2 2 ∧
    dec 15 3 ≠ dec 2 2 := by
  refine ⟨by decide, by decide, by decide⟩

/-- C6 amended: for every item list, tax flag, rate and discount the
calculator returns exactly subtotal = Σ quantity x unitPrice, tax_amount =
subtotal x rate when tax is enabled and 0.00 otherwise, and grand_total =
subtotal + tax_amount - discount, with no rounding applied at any stage
(stated on the denoted rational values).  In particular with tax disabled
the tax amount is 0 for all item lists. -/
theorem C6_amended_no_rounding :
    (∀ (items : List CalcItem) (rate d : Dec),
        (calculate_receipt_totals items false rate d).taxAmount = 0) ∧
    (∀ (items : List CalcItem) (enabled : Bool) (rate d : Dec),
        (calculate_receipt_totals items enabled rate d).subtotal.val =
          (items.map (fun it => it.quantity.val * it.unitPrice.val)).sum ∧
        (calculate_receipt_totals items enabled rate d).taxAmount.val =
          (if enabled then
             (calculate_receipt_totals items enabled rate d).subtotal.val * rate.val
           else 0) ∧
        (calculate_receipt_totals items enabled rate d).grandTotal.val =
          (calculate_receipt_totals items enabled rate d).subtotal.val +
            (calculate_receipt_totals items enabled rate d).taxAmount.val - d.val) := by
  constructor
  · intro items rate d
    rfl
  · intro items enabled rate d
    simp only [calculate_receipt_totals]
    refine ⟨?_, ?_, ?_⟩
    · rw [val_foldl_items, Dec.val_zero, zero_add]
    · cases enabled with
      | false => simpa using Dec.val_zero
      | true =>
          simp only [if_true]
          rw [Dec.val_mul, val_foldl_items, Dec.val_zero, zero_add]
    · rw [Dec.val_sub, Dec.val_add]

/-- C2: per-record error isolation in `bulk_sync`.  Whenever processing one
record ends in an error outcome (validation failure, or any exception
inside the per-record atomic block), the database is exactly what it was
before the record - in particular every previously persisted receipt and
every item row is untouched - and the batch loop records the
`(id, error)` entry and simply continues with the remaining records. -/
theorem C2_per_record_isolation (user : Nat) (now : ℤ) (db : DB)
    (acc : SyncResults) (d : BulkPayload) (rest : List BulkPayload)
    (db' : DB) (i : Option Nat) (e : PyError)
    (h : bulkSyncStep user now db d = (db', .errored i e)) :
    db' = db ∧
    bulkSyncAux user now db acc (d :: rest) =
      bulkSyncAux user now db { acc with errors := acc.errors ++ [(i, e)] } rest := by
  have hdb : db' = db := by
    have h2 := h
    unfold bulkSyncStep at h2
    dsimp only at h2
    split at h2
    · exact ((Prod.mk.injEq _ _ _ _).mp h2).1.symm
    · split at h2
      · have := ((Prod.mk.injEq _ _ _ _).mp h2).2
        split at this <;> cases this
      · exact ((Prod.mk.injEq _ _ _ _).mp h2).1.symm
  refine ⟨hdb, ?_⟩
  show bulkSyncAux user now db acc (d :: rest) = _
  rw [bulkSyncAux, h, hdb]
  rfl

/-- Witness for C2: a record whose submitted subtotal of 25.00 cannot match
the recomputed subtotal of 0 (its `items` were popped by the view) fails
validation, and the loop on the store holding receipt 7 leaves the store
untouched while recording the error. -/
theorem C2_witness :
    bulkSyncStep 10 100 db3 pW =
      (db3, .errored (some 7) (.subtotalMismatch 0 25)) ∧
    (db3 = db3 ∧
      bulkSyncAux 10 100 db3 { created := 0, updated := 0, errors := [] } [pW] =
        bulkSyncAux 10 100 db3
          { created := 0, updated := 0, errors := [(some 7, .subtotalMismatch 0 25)] } []) :=
  ⟨by decide,
   C2_per_record_isolation 10 100 db3 { created := 0, updated := 0, errors := [] }
     pW [] db3 (some 7) (.subtotalMismatch 0 25) (by decide)⟩

/-- C7: change-feed semantics.  With no `last_sync` parameter the operation
fails with the missing-watermark response instead of defaulting; with a
watermark `t` it returns exactly the receipts whose business is owned by
the caller and whose `updated_at` is strictly greater than `t` - the filter
places no condition on `deleted_at`, so soft-deleted receipts are
included. -/
theorem C7_change_feed (db : DB) (user : Nat) (t : ℤ) :
    get_changes db user none = .error (.badRequest "last_sync timestamp is required") ∧
    get_changes db user (some t) = .ok (changesSince db user t) ∧
    ∀ r : Receipt, r ∈ changesSince db user t ↔
      (r ∈ db.receipts ∧ ownedBy db user r = true ∧ t < r.updated_at) := by
  refine ⟨rfl, rfl, fun r => ?_⟩
  simp [changesSince, List.mem_filter, and_assoc]

/-- C8: soft-delete postconditions and visibility.  After `soft_delete`, the
receipt's `deleted_at` is set (non-null) and its `sync_status` is
`deleted`, and a change-feed query whose watermark (50) predates the
deletion (at 100) returns the soft-deleted receipt.  But the receipt does
not merely disappear from the owner's default listing: `get_queryset` spells
the soft-delete filter `deleted_at__is_null` - not a valid Django lookup
(the real name is `isnull`) - so every default list/detail query raises
`FieldError` instead of returning the remaining receipts. -/
theorem C8_soft_delete_eval :
    (r7.soft_delete 100).deleted_at = some 100 ∧
    (r7.soft_delete 100).sync_status = .deleted ∧
    get_changes (dbSoftDelete db9 7 100) 10 (some 50) = .ok [r7.soft_delete 100] ∧
    get_queryset (dbSoftDelete db9 7 100) 10 = .error (.fieldError "is_null") := by
  refine ⟨by decide, by decide, by decide, by decide⟩

/-- C9 counterexample: updating `tax_rate` on the synced receipt 7 through
the serializer's update leaves `sync_status` at `synced` - it is not
demoted to `pending` in the same call as the claim requires. -/
theorem C9_counterexample :
    (detailUpdate db9 100 r7 { tax_rate := some (dec 2 1) } none).map
        (fun x => x.2.sync_status) = .ok .synced ∧
    SyncStatus.synced ≠ SyncStatus.pending := by
  refine ⟨by decide, by decide⟩

/-- C9 amended: `ReceiptDetailSerializer.update` contains no demotion rule
at all - whenever the update succeeds and the payload does not itself carry
a `sync_status` value, the receipt's `sync_status` is exactly what it was
before, whatever fields were edited. -/
theorem C9_amended_no_demotion (db : DB) (now : ℤ) (inst : Receipt)
    (p : FieldsPayload) (itemsOpt : Option (List SItem)) (db' : DB) (r' : Receipt)
    (hs : p.sync_status = none)
    (h : detailUpdate db now inst p itemsOpt = .ok (db', r')) :
    r'.sync_status = inst.sync_status := by
  unfold detailUpdate at h
  simp only [bind, Except.bind, pure, Except.pure] at h
  split at h
  · cases h
  · split at h
    · injection h with h1
      injection h1 with h2 h3
      rw [← h3]
      simp [applyFieldsTo, hs]
    · split at h
      · cases h
      · injection h with h1
        injection h1 with h2 h3
        rw [← h3]
        simp [applyFieldsTo, hs]

/-- Witness for C9: the no-demotion theorem applied to the concrete
tax-rate edit of the synced receipt 7. -/
theorem C9_witness :
    (({ tax_rate := some (dec 2 1) } : FieldsPayload).sync_status = none ∧
      detailUpdate db9 100 r7 { tax_rate := some (dec 2 1) } none =
        .ok ({ db9 with receipts := [{ r7 with tax_rate := dec 2 1, updated_at := 100 }] },
             { r7 with tax_rate := dec 2 1, updated_at := 100 })) ∧
    ({ r7 with tax_rate := dec 2 1, updated_at := 100 } : Receipt).sync_status =
      r7.sync_status :=
  ⟨⟨rfl, by decide⟩,
   C9_amended_no_demotion db9 100 r7 { tax_rate := some (dec 2 1) } none
     { db9 with receipts := [{ r7 with tax_rate := dec 2 1, updated_at := 100 }] }
     { r7 with tax_rate := dec 2 1, updated_at := 100 } rfl (by decide)⟩

/-- C10 counterexample: the direct create operation sets `sync_status` to
`synced` while `server_id` is null and succeeds - no `MissingServerId`
failure exists anywhere on this path. -/
theorem C10_counterexample :
    (perform_create db0 5 p5 (some items5)).map
        (fun x => (x.2.sync_status, x.2.server_id)) =
      .ok (SyncStatus.synced, (none : Option Int)) := by
  decide

/-- C10 amended: there is no server-id guard.  Every successful direct
create hands back a receipt with `sync_status = synced` and
`server_id = none` (the field is read-only and never assigned by this
backend), with no error raised. -/
theorem C10_amended_no_guard (db : DB) (now : ℤ) (p : FieldsPayload)
    (items : Option (List SItem)) (db' : DB) (r : Receipt)
    (h : perform_create db now p items = .ok (db', r)) :
    r.sync_status = .synced ∧ r.server_id = none := by
  unfold perform_create at h
  simp only [bind, Except.bind, pure, Except.pure] at h
  split at h
  · cases h
  · unfold detailCreate at h
    simp only [bind, Except.bind, pure, Except.pure] at h
    split at h
    · cases h
    · split at h
      · cases h
      · injection h with h1
        injection h1 with h2 h3
        rw [← h3]
        exact ⟨rfl, rfl⟩

/-- The successful direct-create run used as the witness input for C10. -/
def c10res : DB × Receipt :=
  ((perform_create db0 5 p5 (some items5)).toOption).getD (db0, r7)

/-- Witness for C10: the no-guard theorem applied to the concrete
successful direct create of the round-trip payload. -/
theorem C10_witness :
    perform_create db0 5 p5 (some items5) = .ok (c10res.1, c10res.2) ∧
    (c10res.2.sync_status = .synced ∧ c10res.2.server_id = none) :=
  ⟨by decide,
   C10_amended_no_guard db0 5 p5 (some items5) c10res.1 c10res.2 (by decide)⟩
